import Mathlib

/-!
Verification of the analytics backend (`backend/main.py` and `backend/core/*`)
against its natural-language specification.

Conventions of the shallow embedding:
* Python floats are modelled as exact rationals (`ℚ`); `round(x, k)` is
  modelled as exact rational rounding to `k` decimal places.
* pandas dataframes are modelled as Lean lists of rows; a column of values is
  a `List ℚ` (with nulls already dropped where the source calls `dropna`).
* The standard deviation `np.std(residuals)` is an irrational square root in
  general, so the forecasting function takes the standard error as an explicit
  parameter; theorems constrain it by `stdError ^ 2 = res_variance …`.
* Fallible lookups return `Option`/`Except` values.
-/

/-- Rounding to 2 decimal places, as in Python `round(x, 2)` (tie behaviour of
binary floats is abstracted to exact rational rounding). -/
def round2 (q : ℚ) : ℚ := (round (q * 100) : ℤ) / 100

/-- Rounding to 4 decimal places, as in Python `round(x, 4)`. -/
def round4 (q : ℚ) : ℚ := (round (q * 10000) : ℤ) / 10000

/-- Embeds `calculate_moving_average` (main.py lines 242-251): for each index
`i`, `None` while `i < window - 1`, otherwise the mean of
`values[i-window+1 : i+1]`, rounded to 2 decimals. -/
def calculate_moving_average (values : List ℚ) (window : ℕ := 3) : List (Option ℚ) :=
  (List.range values.length).map (fun i =>
    if i < window - 1 then none
    else some (round2 ((((values.drop (i + 1 - window)).take window).sum) / (window : ℚ))))

/-- Helper for `calculate_growth_rates`: the loop body over consecutive pairs
(`for i in range(1, len(values))` in main.py lines 256-261). -/
def growth_step : List ℚ → List (Option ℚ)
  | v0 :: v1 :: rest =>
      (if v0 ≠ 0 then some (round2 ((v1 - v0) / v0 * 100)) else none) :: growth_step (v1 :: rest)
  | _ => []

/-- Embeds `calculate_growth_rates` (main.py lines 253-262): the source starts
from `result = [None]` and appends one entry per index `1 ≤ i < len(values)`;
note that on an empty input the result is `[None]`, of length 1. -/
def calculate_growth_rates (values : List ℚ) : List (Option ℚ) :=
  none :: growth_step values

/-- Embeds the per-column growth-rate computation of `get_stats`
(main.py lines 550-556 and the `"growthRate"` field at line 565).
`values` is the column after `dropna()`.  The final step mirrors the Python expression
`round(growth_rate, 2) if growth_rate else None`, whose condition is falsy
both for `None` and for an exact `0.0` growth rate. -/
def stats_growth_rate (dataType : String) (values : List ℚ) : Option ℚ :=
  let gr : Option ℚ :=
    if dataType = "TIME_SERIES" ∧ 2 ≤ values.length then
      match values.head?, values.getLast? with
      | some first, some last =>
          if first ≠ 0 then some ((last - first) / first * 100) else none
      | _, _ => none
    else none
  match gr with
  | some g => if g ≠ 0 then some (round2 g) else none
  | none => none

/-- Embeds the schema dictionary written by `upload_csv` (main.py
lines 136-143 and 407-415). -/
structure Schema where
  timeColumn : Option String
  regionColumn : Option String
  metricColumns : List String
  dataType : String
  rowCount : ℕ
  canPredict : Bool
  predictionReason : String
deriving DecidableEq

/-- Embeds `unique_time_points = df[time_col].nunique() if time_col else 0`
(main.py line 403); `timeVals` holds the values of the time column. -/
def unique_time_points (timeCol : Option String) (timeVals : List ℚ) : ℕ :=
  match timeCol with
  | some _ => timeVals.dedup.length
  | none => 0

/-- Embeds the schema construction of `upload_csv` (main.py lines 403-415):
classification and prediction gating from the distinct-time-point count. -/
def make_schema (timeCol regionCol : Option String) (metricCols : List String)
    (timeVals : List ℚ) (rowCount : ℕ) : Schema :=
  let u := unique_time_points timeCol timeVals
  let dataType := if 3 ≤ u then "TIME_SERIES" else "SNAPSHOT"
  let canPredict := decide (dataType = "TIME_SERIES" ∧ 6 ≤ u)
  { timeColumn := timeCol
    regionColumn := regionCol
    metricColumns := metricCols
    dataType := dataType
    rowCount := rowCount
    canPredict := canPredict
    predictionReason :=
      if canPredict then "Enabled"
      else "Requires ≥6 time points (found " ++ toString u ++ ")" }

/-- Outcome of the time-column cleaning step of `upload_csv`: either the
column parsed (rows dropped and sorted by the parsed date), or it did not and
the dataframe is left untouched with the raw strings restored. -/
inductive TimeCleanOutcome (α : Type) where
  | temporal (rows : List (ℚ × α)) : TimeCleanOutcome α
  | nonTemporal (rows : List (String × α)) : TimeCleanOutcome α
deriving DecidableEq

/-- Embeds the cleanup at main.py lines 382-394: `parse` is the combined
result of all `pd.to_datetime` attempts on one raw cell (lines 356-380), a
parsed date being modelled as a rational.  `valid_dates = df[time_col].notna().sum()`;
if positive, rows with unparseable dates are dropped and the rest sorted
ascending by the parsed value; if zero, the column reverts to the original raw
values and the dataframe keeps its rows and order. -/
def clean_time_column {α : Type} (rows : List (String × α)) (parse : String → Option ℚ) :
    TimeCleanOutcome α :=
  let parsed : List (Option ℚ × α) := rows.map (fun r => (parse r.1, r.2))
  let validDates := (parsed.filterMap (fun p => p.1)).length
  if 0 < validDates then
    .temporal (List.insertionSort (fun a b => a.1 ≤ b.1)
      (parsed.filterMap (fun p => p.1.map (fun q => (q, p.2)))))
  else
    .nonTemporal rows

/-- Embeds the tail of `upload_csv` after time-column detection: cleaning
(lines 350-397, with `time_col = None` on total parse failure at line 394)
followed by schema construction (lines 403-415). -/
def classify_ingest {α : Type} (timeColName : String) (regionCol : Option String)
    (metricCols : List String) (rows : List (String × α)) (parse : String → Option ℚ) :
    TimeCleanOutcome α × Schema :=
  match clean_time_column rows parse with
  | .temporal ts =>
      (.temporal ts, make_schema (some timeColName) regionCol metricCols (ts.map Prod.fst) ts.length)
  | .nonTemporal rs =>
      (.nonTemporal rs, make_schema none regionCol metricCols [] rs.length)

/-- Ordinary-least-squares slope and intercept, the closed form of
`LinearRegression().fit(X, y)` for a single feature (main.py lines 266-274). -/
def ols_fit (xs ys : List ℚ) : ℚ × ℚ :=
  let n : ℚ := xs.length
  let xbar := xs.sum / n
  let ybar := ys.sum / n
  let sxy := ((xs.zip ys).map (fun p => (p.1 - xbar) * (p.2 - ybar))).sum
  let sxx := (xs.map (fun x => (x - xbar) ^ 2)).sum
  let slope := sxy / sxx
  (slope, ybar - slope * xbar)

/-- Embeds `residuals = y - model.predict(X)` (main.py line 282). -/
def residuals (xs ys : List ℚ) : List ℚ :=
  (xs.zip ys).map (fun p => p.2 - ((ols_fit xs ys).1 * p.1 + (ols_fit xs ys).2))

/-- Squared standard error: `np.std(residuals) ^ 2`, the mean squared
deviation of the residuals from their mean (main.py line 283).  The standard
error itself is an irrational square root in general, so theorems relate an
explicit `stdError` parameter to this value. -/
def res_variance (xs ys : List ℚ) : ℚ :=
  let rs := residuals xs ys
  let m := rs.sum / rs.length
  (rs.map (fun r => (r - m) ^ 2)).sum / rs.length

/-- Embeds one element of the `prediction_results` list of
`perform_linear_regression` (main.py lines 285-294). -/
structure PredPoint where
  period : String
  value : ℚ
  lowerBound : ℚ
  upperBound : ℚ
deriving DecidableEq

/-- Embeds the return value of `perform_linear_regression`
(main.py lines 296-301). -/
structure RegressionResult where
  r2 : ℚ
  slope : ℚ
  intercept : ℚ
  predictions : List PredPoint
deriving DecidableEq

/-- Embeds `perform_linear_regression` (main.py lines 264-301).  `stdError`
stands for `np.std(residuals)` (see `res_variance`).  Future indices are
`n+1 .. n+forecastPeriods`; the margin `std_error * (1.5 + 0.1 * i)` widens
with the zero-based forecast offset `i`. -/
def perform_linear_regression (timeIndices values : List ℚ) (stdError : ℚ)
    (forecastPeriods : ℕ) : RegressionResult :=
  let slope := (ols_fit timeIndices values).1
  let intercept := (ols_fit timeIndices values).2
  let ssRes := ((residuals timeIndices values).map (fun r => r ^ 2)).sum
  let ybar := values.sum / (values.length : ℚ)
  let ssTot := (values.map (fun y => (y - ybar) ^ 2)).sum
  { r2 := round4 (1 - ssRes / ssTot)
    slope := round4 slope
    intercept := round4 intercept
    predictions := (List.range forecastPeriods).map (fun i : ℕ =>
      { period := "Forecast " ++ toString (i + 1)
        value := round2 (slope * ((timeIndices.length : ℚ) + 1 + (i : ℚ)) + intercept)
        lowerBound := round2 ((slope * ((timeIndices.length : ℚ) + 1 + (i : ℚ)) + intercept)
          - stdError * (3 / 2 + (i : ℚ) / 10))
        upperBound := round2 ((slope * ((timeIndices.length : ℚ) + 1 + (i : ℚ)) + intercept)
          + stdError * (3 / 2 + (i : ℚ) / 10)) }) }

/-- Embeds one entry of the snapshot trend list of `get_trends`
(main.py lines 593-600). -/
structure TrendPoint where
  period : String
  value : ℚ
  movingAvg : Option ℚ
  growthRate : Option ℚ
deriving DecidableEq

/-- Embeds the snapshot branch of `get_trends` (main.py lines 580-606):
group rows by the region column, sum the chosen metric per group, sort
descending by the sum, keep the top 20, and label each entry with its region
name; `movingAvg` and `growthRate` stay null.  A row is modelled as its
(region value, metric value) pair. -/
def get_trends_snapshot (rows : List (String × ℚ)) : List TrendPoint :=
  let keys := (rows.map Prod.fst).dedup
  let grouped := keys.map (fun k => (k, ((rows.filter (fun r => r.1 = k)).map Prod.snd).sum))
  let sorted := List.insertionSort (fun a b => b.2 ≤ a.2) grouped
  (sorted.take 20).map (fun g =>
    { period := g.1, value := g.2, movingAvg := none, growthRate := none })

/-- Embeds the metric selection of `get_trends` and `get_predictions`
(main.py lines 613 and 663):
`metric if metric and metric in schema["metricColumns"] else schema["metricColumns"][0]`.
The `head?` result `none` models the `IndexError` the source raises when the
fallback indexes an empty metric list. -/
def select_metric (metric : Option String) (metricColumns : List String) : Option String :=
  match metric with
  | some m => if m ∈ metricColumns then some m else metricColumns.head?
  | none => metricColumns.head?

/-- Persistence tiers of the cache (spec §4.3). -/
inductive Tier where
  | memory
  | localDisk
  | durableDb
deriving DecidableEq

/-- Embeds `get_or_load_dataframe` (main.py lines 104-123) with call-count
instrumentation: besides the result, it returns the memory table after the
call and the list of tiers the call touched.  The source checks
`uploaded_data` and then `load_dataframe`; the MongoDB branch at lines
113-121 is dead code (`pass`), so the durable tier is never consulted and the
memory table is never updated. -/
def get_or_load_dataframe {Df : Type} (mem : List (String × Df))
    (diskStore dbStore : String → Option Df) (id : String) :
    Option Df × List (String × Df) × List Tier :=
  match mem.lookup id with
  | some df => (some df, mem, [Tier.memory])
  | none => (diskStore id, mem, [Tier.memory, Tier.localDisk])

/-- Errors a stats/trends request can surface when resolving its schema. -/
inductive StatsError where
  | notFound
  | keyError
deriving DecidableEq

/-- Embeds the head of `get_stats` (main.py lines 536-539), identical in
`get_trends` (lines 575-578): resolve the dataframe, answer 404 when it is
nowhere, then read `detected_schemas[file_id]` unguarded — a missing schema
key is a raw `KeyError`, not the documented NotFound. -/
def get_stats_schema {Df : Type} (mem : List (String × Df))
    (diskStore dbStore : String → Option Df) (schemas : List (String × Schema))
    (id : String) : Except StatsError Schema :=
  match (get_or_load_dataframe mem diskStore dbStore id).1 with
  | none => .error .notFound
  | some _ =>
      match schemas.lookup id with
      | some s => .ok s
      | none => .error .keyError

example : calculate_moving_average [1, 2, 3, 4] = [none, none, some 2, some 3] := by
  simp [calculate_moving_average, List.range_succ, round2, round_eq]
  norm_num
example : calculate_growth_rates [2, 1] = [none, some (-50)] := by
  simp [calculate_growth_rates, growth_step, round2, round_eq]
  norm_num
example : calculate_growth_rates [] = [none] := rfl
example : stats_growth_rate "TIME_SERIES" [5, 5] = none := by
  simp [stats_growth_rate]
example : stats_growth_rate "TIME_SERIES" [4, 5] = some 25 := by
  simp [stats_growth_rate, round2, round_eq]
  norm_num

/-- C1: the spec requires the resolve operation to read memory, then the
local file store, then the durable store, repopulating memory from any slower
tier before returning.  The code does neither: a dataframe found on disk is
returned without being written to the memory table (so a second read touches
the disk tier again), and the durable store is never consulted, so a dataset
present only there is reported absent. -/
theorem get_or_load_dataframe_no_repopulation :
    (get_or_load_dataframe ([] : List (String × ℚ)) (fun _ => some 42) (fun _ => some 7) "d").1
      = some 42 ∧
    (get_or_load_dataframe ([] : List (String × ℚ)) (fun _ => some 42) (fun _ => some 7) "d").2.1
      = [] ∧
    (get_or_load_dataframe
        ((get_or_load_dataframe ([] : List (String × ℚ)) (fun _ => some 42) (fun _ => some 7) "d").2.1)
        (fun _ => some 42) (fun _ => some 7) "d").2.2
      = [Tier.memory, Tier.localDisk] ∧
    (get_or_load_dataframe ([] : List (String × ℚ)) (fun _ => none) (fun _ => some 7) "d").1
      = none :=
  ⟨rfl, rfl, rfl, rfl⟩

/-- C2: the ingested schema has `dataType = "TIME_SERIES"` iff the
distinct-time-point count (0 when no time column was found) is at least 3,
`canPredict` holds iff the dataset is a time series with at least 6 distinct
time points, and whenever prediction is disabled the stored reason names the
threshold 6 and the observed count. -/
theorem make_schema_classification (tc rc : Option String) (mcs : List String)
    (tv : List ℚ) (n : ℕ) :
    ((make_schema tc rc mcs tv n).dataType = "TIME_SERIES" ↔
        3 ≤ unique_time_points tc tv) ∧
    ((make_schema tc rc mcs tv n).canPredict = true ↔
        ((make_schema tc rc mcs tv n).dataType = "TIME_SERIES" ∧
          6 ≤ unique_time_points tc tv)) ∧
    ((make_schema tc rc mcs tv n).canPredict = false →
        (make_schema tc rc mcs tv n).predictionReason =
          "Requires ≥6 time points (found " ++ toString (unique_time_points tc tv) ++ ")") := by
  unfold make_schema
  by_cases h3 : 3 ≤ unique_time_points tc tv <;>
    by_cases h6 : 6 ≤ unique_time_points tc tv <;>
      simp_all

/-- Witness for C2: a dataset with 2 distinct time points is a snapshot whose
reason string names the threshold 6 and the observed count 2. -/
theorem make_schema_classification_witness :
    (make_schema (some "year") none ["v"] [2019, 2020] 2).predictionReason =
      "Requires ≥6 time points (found 2)" := by
  refine (make_schema_classification (some "year") none ["v"] [2019, 2020] 2).2.2 ?_
  norm_num [make_schema, unique_time_points, List.dedup_cons_of_not_mem]

/-- C9: a trends or prediction request naming a metric outside the metric list
of the schema (or naming none) silently falls back to the first declared metric
column. -/
theorem select_metric_fallback (metric : Option String) (mcs : List String)
    (hm : ∀ m, metric = some m → m ∉ mcs) (hne : mcs ≠ []) :
    ∃ first rest, mcs = first :: rest ∧ select_metric metric mcs = some first := by
  match mcs, hne with
  | first :: rest, _ =>
    refine ⟨first, rest, rfl, ?_⟩
    cases metric with
    | none => rfl
    | some m =>
      have : m ∉ first :: rest := hm m rfl
      simp [select_metric, this]

/-- Witness for C9: requesting the absent metric "x" against metric columns
["a", "b"] selects "a". -/
theorem select_metric_fallback_witness :
    ∃ first rest, ["a", "b"] = first :: rest ∧
      select_metric (some "x") ["a", "b"] = some first := by
  refine select_metric_fallback (some "x") ["a", "b"] ?_ (by simp)
  intro m hm
  cases hm
  simp

/-- C10: when the dataset id misses the in-memory table but the local file
store supplies the dataframe, the unguarded `detected_schemas[file_id]`
lookup raises a KeyError whenever the schema table lacks the id — not the
documented NotFound — and is safe exactly when the schema table has the id
(populated at ingestion or via the schema endpoint). -/
theorem get_stats_schema_keyerror {Df : Type} (mem : List (String × Df))
    (diskStore dbStore : String → Option Df) (schemas : List (String × Schema))
    (id : String) (df : Df)
    (hmem : mem.lookup id = none) (hdisk : diskStore id = some df) :
    (schemas.lookup id = none →
        get_stats_schema mem diskStore dbStore schemas id = .error .keyError) ∧
    (∀ s, schemas.lookup id = some s →
        get_stats_schema mem diskStore dbStore schemas id = .ok s) ∧
    get_stats_schema mem diskStore dbStore schemas id ≠ .error .notFound := by
  have hres : get_stats_schema mem diskStore dbStore schemas id =
      match schemas.lookup id with
      | some s => .ok s
      | none => .error .keyError := by
    unfold get_stats_schema get_or_load_dataframe
    rw [hmem]
    simp [hdisk]
  refine ⟨fun h => by rw [hres, h], fun s h => by rw [hres, h], ?_⟩
  rw [hres]
  cases schemas.lookup id <;> simp

/-- Witness for C10: an empty process state with the dataframe on disk and no
schema entry yields the KeyError outcome. -/
theorem get_stats_schema_keyerror_witness :
    get_stats_schema ([] : List (String × ℚ)) (fun _ => some 1) (fun _ => none) [] "d"
      = .error .keyError :=
  (get_stats_schema_keyerror [] (fun _ => some 1) (fun _ => none) [] "d" 1 rfl rfl).1 rfl

/-- Counterexample to C4 as stated: for the TIME_SERIES column [5, 5] the
first non-null value is 5 ≠ 0, yet the reported growth rate is null, because
`round(growth_rate, 2) if growth_rate else None` treats the exact 0.0 growth
rate as falsy. -/
theorem stats_growth_rate_zero_counterexample :
    stats_growth_rate "TIME_SERIES" [5, 5] = none ∧ (5 : ℚ) ≠ 0 := by
  constructor
  · simp [stats_growth_rate]
  · norm_num

/-- C4 (amended): for a TIME_SERIES metric column with at least 2 non-null
values, the growth rate equals `(last - first) / first * 100` rounded to 2
decimals, and it is null exactly when the first value is 0 or the last value
equals the first (zero growth). -/
theorem stats_growth_rate_spec (v0 v1 : ℚ) (vs : List ℚ) :
    ∃ last, (v0 :: v1 :: vs).getLast? = some last ∧
      stats_growth_rate "TIME_SERIES" (v0 :: v1 :: vs) =
        (if v0 = 0 ∨ last = v0 then none
         else some (round2 ((last - v0) / v0 * 100))) := by
  obtain ⟨last, hlast⟩ :=
    Option.isSome_iff_exists.mp
      (List.getLast?_isSome.mpr (by simp) : ((v0 :: v1 :: vs).getLast?).isSome)
  refine ⟨last, hlast, ?_⟩
  have hlen : 2 ≤ (v0 :: v1 :: vs).length := by simp
  rw [stats_growth_rate]
  simp only [List.head?_cons, hlast, hlen, and_true, if_pos rfl, true_and, if_true]
  by_cases h0 : v0 = 0
  · simp [h0]
  · have hg : ((last - v0) / v0 * 100 = 0) ↔ last = v0 := by
      simp [mul_eq_zero, div_eq_zero_iff, h0, sub_eq_zero]
    by_cases hlv : last = v0
    · simp [h0, hg, hlv]
    · simp only [h0, if_neg, ite_not, hg]
      simp [h0, hg, hlv]

/-- C5: the moving average with window 3 preserves the input length, is null
at positions 0 and 1, and at every later in-range position equals the mean of
that value and its two predecessors, rounded to 2 decimals. -/
theorem calculate_moving_average_spec (values : List ℚ) :
    (calculate_moving_average values).length = values.length ∧
    ∀ i : ℕ, (calculate_moving_average values)[i]? =
      if i < values.length then
        some (if i < 2 then none
              else some (round2 ((((values.drop (i - 2)).take 3).sum) / 3)))
      else none := by
  constructor
  · simp [calculate_moving_average]
  · intro i
    have hidx : i + 1 - 3 = i - 2 := by omega
    simp only [calculate_moving_average, List.getElem?_map, List.getElem?_range, hidx]
    by_cases h : i < values.length
    · simp [h]
    · simp [h]
      omega

/-- Index formula for the growth-rate loop body. -/
theorem growth_step_getElem? (l : List ℚ) : ∀ i : ℕ,
    (growth_step l)[i]? =
      (l[i]?).bind (fun prev => (l[i + 1]?).map (fun cur =>
        if prev ≠ 0 then some (round2 ((cur - prev) / prev * 100)) else none)) := by
  induction l with
  | nil => intro i; simp [growth_step]
  | cons v rest ih =>
    intro i
    cases rest with
    | nil => cases i <;> simp [growth_step]
    | cons v1 rest' =>
      cases i with
      | zero => simp [growth_step]
      | succ j => simpa [growth_step] using ih j

/-- Length of the growth-rate loop body output. -/
theorem growth_step_length (l : List ℚ) : (growth_step l).length = l.length - 1 := by
  induction l with
  | nil => simp [growth_step]
  | cons v rest ih =>
    cases rest with
    | nil => simp [growth_step]
    | cons v1 rest' =>
      rw [growth_step]
      simp only [List.length_cons, ih]
      omega

/-- Counterexample to C6 as stated: on the empty list the source returns its
initial `[None]`, so the output length is 1 while the input length is 0. -/
theorem calculate_growth_rates_empty_counterexample :
    calculate_growth_rates ([] : List ℚ) = [none] ∧
    (calculate_growth_rates ([] : List ℚ)).length ≠ ([] : List ℚ).length := by
  constructor <;> simp [calculate_growth_rates, growth_step]

/-- C6 (amended): for every nonempty list, the growth-rate sequence has the
length of the input, is null at position 0, and at position i ≥ 1 equals
`(v[i] - v[i-1]) / v[i-1] * 100` rounded to 2 decimals when `v[i-1]` is
nonzero and null when it is 0, so no division by zero occurs. -/
theorem calculate_growth_rates_spec (v : ℚ) (vs : List ℚ) :
    (calculate_growth_rates (v :: vs)).length = (v :: vs).length ∧
    (calculate_growth_rates (v :: vs))[0]? = some none ∧
    ∀ i : ℕ, (calculate_growth_rates (v :: vs))[i + 1]? =
      ((v :: vs)[i]?).bind (fun prev => ((v :: vs)[i + 1]?).map (fun cur =>
        if prev ≠ 0 then some (round2 ((cur - prev) / prev * 100)) else none)) := by
  refine ⟨?_, by simp [calculate_growth_rates], ?_⟩
  · simp [calculate_growth_rates, growth_step_length]
  · intro i
    simpa [calculate_growth_rates] using growth_step_getElem? (v :: vs) i

/-- C8: when every parsing attempt on the candidate time column fails, the
ingested dataframe keeps its original rows, values and order, the time column of the schema
becomes absent, and the dataset is classified SNAPSHOT. -/
theorem clean_time_revert {α : Type} (tc : String) (rc : Option String)
    (mcs : List String) (rows : List (String × α)) (parse : String → Option ℚ)
    (hz : ∀ r ∈ rows, parse r.1 = none) :
    classify_ingest tc rc mcs rows parse =
      (.nonTemporal rows, make_schema none rc mcs [] rows.length) ∧
    (classify_ingest tc rc mcs rows parse).2.dataType = "SNAPSHOT" ∧
    (classify_ingest tc rc mcs rows parse).2.timeColumn = none := by
  have hclean : clean_time_column rows parse = .nonTemporal rows := by
    unfold clean_time_column
    have hnil : (rows.map (fun r => (parse r.1, r.2))).filterMap (fun p => p.1) = [] := by
      rw [List.filterMap_map, List.filterMap_eq_nil_iff]
      intro r hr
      simpa using hz r hr
    simp [hnil]
  have hmain : classify_ingest tc rc mcs rows parse =
      (.nonTemporal rows, make_schema none rc mcs [] rows.length) := by
    unfold classify_ingest
    rw [hclean]
  refine ⟨hmain, ?_, ?_⟩ <;> rw [hmain] <;> simp [make_schema, unique_time_points]

/-- Witness for C8: a one-row dataframe whose candidate time column never
parses is classified SNAPSHOT. -/
theorem clean_time_revert_witness :
    (classify_ingest "date" none ["m"] [("foo", (0 : ℕ))] (fun _ => none)).2.dataType
      = "SNAPSHOT" :=
  (clean_time_revert "date" none ["m"] [("foo", 0)] (fun _ => none) (by simp)).2.1

/-- C7: for a dataset with no time column but a region column, the trends
operation returns at most 20 entries, sorted descending by value, each
labeled by a region name occurring in the data, carrying the sum of the
chosen metric over exactly the rows of that region, with `movingAvg` and
`growthRate` null throughout. -/
theorem get_trends_snapshot_spec (rows : List (String × ℚ)) :
    (get_trends_snapshot rows).length ≤ 20 ∧
    List.Sorted (fun a b : TrendPoint => b.value ≤ a.value) (get_trends_snapshot rows) ∧
    ∀ p ∈ get_trends_snapshot rows,
      p.movingAvg = none ∧ p.growthRate = none ∧
      p.value = ((rows.filter (fun r => r.1 = p.period)).map Prod.snd).sum ∧
      p.period ∈ rows.map Prod.fst := by
  refine ⟨?_, ?_, ?_⟩
  · simp [get_trends_snapshot]
  · simp only [get_trends_snapshot]
    have hs : List.Pairwise (fun a b : String × ℚ => b.2 ≤ a.2)
        (List.insertionSort (fun a b : String × ℚ => b.2 ≤ a.2)
          (((rows.map Prod.fst).dedup).map
            (fun k => (k, ((rows.filter (fun r => r.1 = k)).map Prod.snd).sum)))) := by
      haveI : IsTotal (String × ℚ) (fun a b => b.2 ≤ a.2) :=
        ⟨fun a b => (le_total a.2 b.2).symm⟩
      haveI : IsTrans (String × ℚ) (fun a b => b.2 ≤ a.2) :=
        ⟨fun _ _ _ hab hbc => le_trans hbc hab⟩
      exact List.sorted_insertionSort _ _
    have htake := List.Pairwise.sublist (List.take_sublist 20 _) hs
    exact List.Pairwise.map _ (fun a b hab => hab) htake
  · intro p hp
    simp only [get_trends_snapshot] at hp
    obtain ⟨g, hg, rfl⟩ := List.mem_map.mp hp
    have hg1 : g ∈ List.insertionSort (fun a b : String × ℚ => b.2 ≤ a.2)
        (((rows.map Prod.fst).dedup).map
          (fun k => (k, ((rows.filter (fun r => r.1 = k)).map Prod.snd).sum))) :=
      List.take_subset 20 _ hg
    have hg2 := (List.mem_insertionSort _).mp hg1
    obtain ⟨k, hk, rfl⟩ := List.mem_map.mp hg2
    exact ⟨rfl, rfl, rfl, List.mem_dedup.mp hk⟩

/-- Witness for C7: the one-region dataset [("b", 3)] yields at most 20
entries and its "b" entry carries null analytics fields. -/
theorem get_trends_snapshot_spec_witness :
    (get_trends_snapshot [("b", 3)]).length ≤ 20 ∧
    ({ period := "b", value := 3, movingAvg := none, growthRate := none } :
        TrendPoint).movingAvg = none := by
  refine ⟨(get_trends_snapshot_spec [("b", 3)]).1, ?_⟩
  refine ((get_trends_snapshot_spec [("b", 3)]).2.2
    { period := "b", value := 3, movingAvg := none, growthRate := none } ?_).1
  have hout : get_trends_snapshot [("b", 3)] =
      [{ period := "b", value := 3, movingAvg := none, growthRate := none }] := by
    simp [get_trends_snapshot, List.insertionSort, List.orderedInsert,
      List.dedup_cons_of_not_mem, List.filter]
  simp [hout]

/-- C3: the forecast returns exactly `h` points; the point at zero-based
offset `i` targets index `n + 1 + i` (so indices `n+1 .. n+h`), its center is
the prediction of the fitted line there, and its bounds are that prediction plus
or minus `stdError * (1.5 + 0.1 * i)`, rounded to 2 decimals; the margin at
step 1 strictly exceeds the margin at step 0 whenever `stdError` is
positive.  `stdError` is the standard deviation of the in-sample residuals,
pinned by the hypotheses `0 ≤ stdError` and `stdError ^ 2 = res_variance`. -/
theorem perform_linear_regression_spec (xs ys : List ℚ) (stdError : ℚ) (h : ℕ)
    (hsd : 0 ≤ stdError) (hvar : stdError ^ 2 = res_variance xs ys) :
    (perform_linear_regression xs ys stdError h).predictions.length = h ∧
    (∀ i : ℕ, (perform_linear_regression xs ys stdError h).predictions[i]? =
      if i < h then
        some { period := "Forecast " ++ toString (i + 1)
               value := round2 ((ols_fit xs ys).1 * ((xs.length : ℚ) + 1 + (i : ℚ))
                 + (ols_fit xs ys).2)
               lowerBound := round2 (((ols_fit xs ys).1 * ((xs.length : ℚ) + 1 + (i : ℚ))
                 + (ols_fit xs ys).2) - stdError * (3 / 2 + (i : ℚ) / 10))
               upperBound := round2 (((ols_fit xs ys).1 * ((xs.length : ℚ) + 1 + (i : ℚ))
                 + (ols_fit xs ys).2) + stdError * (3 / 2 + (i : ℚ) / 10)) }
      else none) ∧
    (0 < stdError →
      stdError * (3 / 2 + (1 : ℚ) / 10) > stdError * (3 / 2 + (0 : ℚ) / 10)) := by
  refine ⟨?_, ?_, ?_⟩
  · simp only [perform_linear_regression, List.length_map, List.length_range]
  · intro i
    simp only [perform_linear_regression, List.getElem?_map]
    by_cases hi : i < h
    · rw [List.getElem?_range hi, if_pos hi]
      rfl
    · rw [List.getElem?_eq_none (by simp [List.length_range]; omega), if_neg hi]
      rfl
  · intro hpos
    have hlt : (3 / 2 + (0 : ℚ) / 10) < (3 / 2 + (1 : ℚ) / 10) := by norm_num
    exact mul_lt_mul_of_pos_left hlt hpos

/-- Witness for C3: the series x = [1, 2, 3, 4], y = [2, 1, 2, 5] has
residuals [1, -1, -1, 1], hence rational standard error 1, and a horizon-2
forecast returns exactly 2 points. -/
theorem perform_linear_regression_spec_witness :
    (0 : ℚ) ≤ 1 ∧
    (perform_linear_regression [1, 2, 3, 4] [2, 1, 2, 5] 1 2).predictions.length = 2 :=
  ⟨by norm_num,
    (perform_linear_regression_spec [1, 2, 3, 4] [2, 1, 2, 5] 1 2 (by norm_num)
      (by norm_num [res_variance, residuals, ols_fit])).1⟩
